import Mathlib

/-!
Verification of the custom-widget layer of the cigvis repository
(`src/cigvis/gui/custom_widgets.py`), as a shallow embedding in Lean 4.

The embedding models:
- `MyQSpinBox` (value state with `minimum`/`maximum` bounds; `keyPressEvent`
  for Enter/Up/Down and `stepBy`, each returning the new state together with
  the optionally emitted `changed` signal payload);
- `ToggleButton` and its exclusive-group coordination through the parent's
  `updateToggleState` (the parent's method is not part of the sources and is
  modelled from the spec);
- `RadioButtonPanel` (construction, the `toggled` handler
  `onRadioButtonChanged`, and programmatic selection of a button);
- `RectP` (the two-corner rectangle accumulator).

Python `float` coordinates are modelled as rationals, Qt `int` spin values as
integers.  Fields that default to Python `None` are `Option`-valued.
-/

/-! ## MyQSpinBox -/

/-- State of a `MyQSpinBox`: current value plus the `minimum`/`maximum`
bounds inherited from `QSpinBox`. -/
structure SpinState where
  minimum : Int
  maximum : Int
  value : Int
deriving DecidableEq, Repr

/-- Qt's `QSpinBox.setValue`: the stored value is clamped into
`[minimum, maximum]`. -/
def SpinState.setValue (s : SpinState) (v : Int) : SpinState :=
  { s with value := max s.minimum (min s.maximum v) }

/-- The keys handled by `MyQSpinBox.keyPressEvent`. -/
inductive SpinKey where
  | enter
  | up
  | down
deriving DecidableEq, Repr

/-- `MyQSpinBox.keyPressEvent`: returns the state after the event together
with the payload of the `changed` signal, if one is emitted.
- Enter: emit `changed(self.value())`, no state change;
- Up: if `value >= maximum` return silently, else `setValue(value + 1)` and
  emit `changed(value + 1)`;
- Down: if `value <= minimum` return silently, else `setValue(value - 1)`
  and emit `changed(value - 1)`. -/
def SpinState.keyPressEvent (s : SpinState) (k : SpinKey) : SpinState × Option Int :=
  match k with
  | SpinKey.enter => (s, some s.value)
  | SpinKey.up =>
      if s.value ≥ s.maximum then (s, none)
      else
        let v := s.value + 1
        (s.setValue v, some v)
  | SpinKey.down =>
      if s.value ≤ s.minimum then (s, none)
      else
        let v := s.value - 1
        (s.setValue v, some v)

/-- `MyQSpinBox.stepBy`: performs `QSpinBox.stepBy` (add `steps`, clamped)
and then emits `changed(self.value())`. -/
def SpinState.stepBy (s : SpinState) (steps : Int) : SpinState × Option Int :=
  let s2 := s.setValue (s.value + steps)
  (s2, some s2.value)

/-! ## RectP -/

/-- `RectP`: two corner points, each coordinate optionally unset
(Python `None`). -/
structure RectP where
  x0 : Option ℚ := none
  y0 : Option ℚ := none
  x1 : Option ℚ := none
  y1 : Option ℚ := none
deriving DecidableEq, Repr

/-- The freshly constructed `RectP()` with all coordinates `None`. -/
def RectP.empty : RectP := {}

/-- `RectP.add_p0`: set the first corner. -/
def RectP.add_p0 (r : RectP) (x0 y0 : ℚ) : RectP :=
  { r with x0 := some x0, y0 := some y0 }

/-- `RectP.add_p1`: set the second corner. -/
def RectP.add_p1 (r : RectP) (x1 y1 : ℚ) : RectP :=
  { r with x1 := some x1, y1 := some y1 }

/-- `RectP.from_points`: build a rectangle from two concrete points. -/
def RectP.from_points (p0 p1 : ℚ × ℚ) : RectP :=
  { x0 := some p0.1, y0 := some p0.2, x1 := some p1.1, y1 := some p1.2 }

/-- `RectP.to_start_size`: `[x0, y0, abs(x1 - x0), abs(y1 - y0)]`.  With an
unset coordinate the Python code raises a `TypeError` (arithmetic on
`None`), modelled as `none`. -/
def RectP.to_start_size (r : RectP) : Option (List ℚ) :=
  match r.x0, r.y0, r.x1, r.y1 with
  | some x0, some y0, some x1, some y1 => some [x0, y0, |x1 - x0|, |y1 - y0|]
  | _, _, _, _ => none

/-- `RectP.to_points`: `[x0, y0, x1, y1]`, unset coordinates staying `None`. -/
def RectP.to_points (r : RectP) : List (Option ℚ) :=
  [r.x0, r.y0, r.x1, r.y1]

/-- A corner-assignment operation on a `RectP` (`add_p0` or `add_p1`). -/
inductive RectOp where
  | p0 (x y : ℚ)
  | p1 (x y : ℚ)
deriving DecidableEq, Repr

/-- Apply one corner assignment. -/
def RectP.applyOp (r : RectP) : RectOp → RectP
  | RectOp.p0 x y => r.add_p0 x y
  | RectOp.p1 x y => r.add_p1 x y

/-- Apply a sequence of corner assignments, left to right. -/
def RectP.applyOps (r : RectP) (ops : List RectOp) : RectP :=
  ops.foldl RectP.applyOp r

/-! ## ToggleButton and exclusive toggle groups -/

/-- A `ToggleButton`: its configuration flags, the stored `self.title`, the
checked state and the displayed text. -/
structure ToggleButton where
  usesfix : Bool
  exclu : Bool
  title : String
  checked : Bool
  text : String
deriving DecidableEq, Repr

/-- `ToggleButton.__init__(title, usesfix, exclu)`: with `usesfix` the title
becomes `title + " OFF"`; the (possibly suffixed) title is both stored in
`self.title` and displayed; the button starts unchecked. -/
def ToggleButton.init (title : String) (usesfix exclu : Bool) : ToggleButton :=
  let t := if usesfix then title ++ " OFF" else title
  { usesfix := usesfix, exclu := exclu, title := t, checked := false, text := t }

/-- The suffix-update tail of `ToggleButton.onToggle`: with `usesfix` the
displayed text becomes `self.title + " ON"` or `self.title + " OFF"`
according to the checked state; otherwise nothing happens. -/
def ToggleButton.runOnToggle (b : ToggleButton) : ToggleButton :=
  if b.usesfix then
    { b with text := b.title ++ (if b.checked then " ON" else " OFF") }
  else b

/-- `setChecked(False)` on a sibling: if it was checked, its state flips and
its own `toggled` handler fires (with `checked = False` the exclusive branch
calls `updateToggleState(self, False)`, which performs no coordination, and
the suffix update runs); if it was unchecked nothing happens. -/
def ToggleButton.setOff (b : ToggleButton) : ToggleButton :=
  if b.checked then ToggleButton.runOnToggle { b with checked := false } else b

/-- Modelled from the spec: the parent widget's `updateToggleState(self,
checked)` method is not among the sources (only its call site in
`ToggleButton.onToggle` is).  Per the spec's contract — "when any one
transitions to the on state, all others must transition to off" — a
transition to on sets every sibling of the sender to off (each sibling's
own `toggled` handler firing in turn), and a transition to off performs no
coordination. -/
def updateToggleState (n : Nat) (g : Fin n → ToggleButton) (i : Fin n) (checked : Bool) :
    Fin n → ToggleButton :=
  if checked then fun j => if j = i then g j else (g j).setOff else g

/-- A user/programmatic toggle of button `i` in a group of `n` buttons
sharing one parent: the button's checked state flips, its `toggled` signal
fires and `onToggle` runs — with `exclu` the parent's `updateToggleState`
coordinates the siblings, then the suffix update applies to the sender. -/
def toggleEvent (n : Nat) (g : Fin n → ToggleButton) (i : Fin n) : Fin n → ToggleButton :=
  let b1 := { g i with checked := !(g i).checked }
  let g1 := Function.update g i b1
  let g2 := if b1.exclu then updateToggleState n g1 i b1.checked else g1
  Function.update g2 i (g2 i).runOnToggle

/-- Apply a sequence of toggle events, left to right. -/
def applyToggles (n : Nat) (g : Fin n → ToggleButton) (ops : List (Fin n)) :
    Fin n → ToggleButton :=
  ops.foldl (toggleEvent n) g

/-- At most one button of the group is checked. -/
def AtMostOneOn (n : Nat) (g : Fin n → ToggleButton) : Prop :=
  ∀ j k : Fin n, (g j).checked = true → (g k).checked = true → j = k

/-! ## RadioButtonPanel -/

/-- An `UnpickRadioButton` as the panel sees it: its label and checked
state.  (Its mouse events are overridden to do nothing, so state changes
are programmatic only.) -/
structure RadioButton where
  text : String
  checked : Bool
deriving DecidableEq, Repr

/-- State of a `RadioButtonPanel`. -/
structure RadioButtonPanel where
  names : List String
  radioButtons : List RadioButton
  selected : String
deriving DecidableEq, Repr

/-- `RadioButtonPanel.onRadioButtonChanged` with sender button `j`: if the
sender is checked, `self.selected` becomes its text and every other button
is set unchecked (`setChecked(False)`; each such change fires the handler
again for the sibling, which — being unchecked — does nothing further). -/
def onRadioButtonChanged (p : RadioButtonPanel) (j : Nat) : RadioButtonPanel :=
  match p.radioButtons[j]? with
  | none => p
  | some b =>
    if b.checked then
      { p with
        selected := b.text
        radioButtons :=
          p.radioButtons.mapIdx fun k c => if k = j then c else { c with checked := false } }
    else p

/-- Programmatic `setChecked(True)` on button `j`: if the button exists and
is unchecked, its state flips and its `toggled` signal fires the connected
`onRadioButtonChanged`; if it is already checked (or absent) nothing
happens. -/
def selectButton (p : RadioButtonPanel) (j : Nat) : RadioButtonPanel :=
  match p.radioButtons[j]? with
  | none => p
  | some b =>
    if b.checked then p
    else
      onRadioButtonChanged
        { p with radioButtons := p.radioButtons.set j { b with checked := true } } j

/-- `RadioButtonPanel.__init__(names)`: one unchecked button per name, then
`self.radioButtons[0].setChecked(True)` — an `IndexError` when `names` is
empty — whose `toggled` signal runs the handler, and finally
`self.selected = self.names[0]`.  (Before the handler first runs the
`selected` attribute does not exist; the placeholder `""` models that and
is overwritten before `__init__` returns.) -/
def mkRadioButtonPanel (names : List String) : Except String RadioButtonPanel :=
  let buttons := names.map fun nm => RadioButton.mk nm false
  match names with
  | [] => Except.error "IndexError"
  | nm0 :: _ =>
      let p0 : RadioButtonPanel := { names := names, radioButtons := buttons, selected := "" }
      let p1 := selectButton p0 0
      Except.ok { p1 with selected := nm0 }

/-- `RadioButtonPanel.getCurrentSelection`. -/
def getCurrentSelection (p : RadioButtonPanel) : String :=
  p.selected

/-- Panel invariant: exactly one button is checked and `selected` is its
label. -/
def ExactlyOneChecked (p : RadioButtonPanel) : Prop :=
  ∃ (j : Nat) (b : RadioButton), p.radioButtons[j]? = some b ∧ b.checked = true ∧
    p.selected = b.text ∧
    ∀ (k : Nat) (c : RadioButton), p.radioButtons[k]? = some c → c.checked = true → k = j

/-! ## Helper lemmas -/

/-- `getElem?` commutes with `mapIdx`. -/
theorem mapIdx_getElem? {α β : Type} (f : Nat → α → β) (l : List α) (k : Nat) :
    (l.mapIdx f)[k]? = (l[k]?).map (f k) := by
  induction l generalizing f k with
  | nil => simp
  | cons a l ih =>
      rw [List.mapIdx_cons]
      cases k with
      | zero => simp
      | succ k => simp [ih]

/-! ## Theorems: MyQSpinBox -/

/-- C6: pressing Up at or above the maximum, or Down at or below the
minimum, leaves a `MyQSpinBox` unchanged and emits no `changed` signal. -/
theorem spinbox_out_of_range_silent (s : SpinState) :
    (s.maximum ≤ s.value → s.keyPressEvent SpinKey.up = (s, none)) ∧
    (s.value ≤ s.minimum → s.keyPressEvent SpinKey.down = (s, none)) := by
  constructor <;> intro h <;> simp [SpinState.keyPressEvent, h]

/-- Witness for `spinbox_out_of_range_silent` at the concrete states
`(minimum, maximum, value) = (0, 5, 5)` and `(0, 5, 0)`. -/
theorem spinbox_out_of_range_silent_witness :
    ((5 : Int) ≤ 5 ∧
      SpinState.keyPressEvent ⟨0, 5, 5⟩ SpinKey.up = (⟨0, 5, 5⟩, none)) ∧
    ((0 : Int) ≤ 0 ∧
      SpinState.keyPressEvent ⟨0, 5, 0⟩ SpinKey.down = (⟨0, 5, 0⟩, none)) :=
  ⟨⟨by decide, (spinbox_out_of_range_silent ⟨0, 5, 5⟩).1 (by decide)⟩,
   ⟨by decide, (spinbox_out_of_range_silent ⟨0, 5, 0⟩).2 (by decide)⟩⟩

/-- C3: pressing Enter emits `changed` with the currently displayed value
and does not change the state; at any state `t` displaying the value an
in-range Up step produces, the Enter notification is identical to the Up
step's notification; and `stepBy 1` produces exactly the same state and
notification as the Up key. -/
theorem spinbox_enter_equals_step (s t : SpinState)
    (hmin : s.minimum ≤ s.value) (hmax : s.value < s.maximum)
    (hsame : t.value = ((s.keyPressEvent SpinKey.up).1).value) :
    (t.keyPressEvent SpinKey.enter).1 = t ∧
    (t.keyPressEvent SpinKey.enter).2 = some t.value ∧
    (t.keyPressEvent SpinKey.enter).2 = (s.keyPressEvent SpinKey.up).2 ∧
    s.stepBy 1 = s.keyPressEvent SpinKey.up := by
  have hnot : ¬ s.value ≥ s.maximum := not_le.mpr hmax
  have hclamp : max s.minimum (min s.maximum (s.value + 1)) = s.value + 1 := by
    rw [min_eq_right (by omega), max_eq_right (by omega)]
  have hup : s.keyPressEvent SpinKey.up =
      ({ s with value := s.value + 1 }, some (s.value + 1)) := by
    simp [SpinState.keyPressEvent, hnot, SpinState.setValue, hclamp]
  refine ⟨rfl, rfl, ?_, ?_⟩
  · rw [hup]
    rw [hup] at hsame
    simp [SpinState.keyPressEvent, hsame]
  · rw [hup]
    simp [SpinState.stepBy, SpinState.setValue, hclamp]

/-- Witness for `spinbox_enter_equals_step` with
`s = (0, 10, 3)` and `t = (0, 10, 4)`. -/
theorem spinbox_enter_equals_step_witness :
    (0 : Int) ≤ 3 ∧ (3 : Int) < 10 ∧
    (SpinState.mk 0 10 4).value =
      ((SpinState.keyPressEvent ⟨0, 10, 3⟩ SpinKey.up).1).value ∧
    (SpinState.keyPressEvent ⟨0, 10, 4⟩ SpinKey.enter).2 =
      (SpinState.keyPressEvent ⟨0, 10, 3⟩ SpinKey.up).2 :=
  ⟨by decide, by decide, by decide,
   (spinbox_enter_equals_step ⟨0, 10, 3⟩ ⟨0, 10, 4⟩ (by decide) (by decide)
     (by decide)).2.2.1⟩

/-! ## Theorems: RectP -/

/-- C2: for every sequence of `add_p0`/`add_p1` assignments that leaves both
corners set, `to_start_size` returns `[x0, y0, |x1 - x0|, |y1 - y0|]`, and
the width and height entries are non-negative. -/
theorem rectp_start_size_abs_diffs (ops : List RectOp) (x0 y0 x1 y1 : ℚ)
    (hx0 : (RectP.applyOps RectP.empty ops).x0 = some x0)
    (hy0 : (RectP.applyOps RectP.empty ops).y0 = some y0)
    (hx1 : (RectP.applyOps RectP.empty ops).x1 = some x1)
    (hy1 : (RectP.applyOps RectP.empty ops).y1 = some y1) :
    (RectP.applyOps RectP.empty ops).to_start_size =
      some [x0, y0, |x1 - x0|, |y1 - y0|] ∧
    0 ≤ |x1 - x0| ∧ 0 ≤ |y1 - y0| := by
  refine ⟨?_, abs_nonneg _, abs_nonneg _⟩
  unfold RectP.to_start_size
  rw [hx0, hy0, hx1, hy1]

/-- Witness for `rectp_start_size_abs_diffs` on the assignment sequence
`add_p0(1, 2); add_p1(4, 6)`. -/
theorem rectp_start_size_abs_diffs_witness :
    (RectP.applyOps RectP.empty [RectOp.p0 1 2, RectOp.p1 4 6]).x0 = some 1 ∧
    (RectP.applyOps RectP.empty [RectOp.p0 1 2, RectOp.p1 4 6]).to_start_size =
      some [1, 2, |(4 : ℚ) - 1|, |(6 : ℚ) - 2|] ∧
    0 ≤ |(4 : ℚ) - 1| ∧ 0 ≤ |(6 : ℚ) - 2| := by
  have h := rectp_start_size_abs_diffs [RectOp.p0 1 2, RectOp.p1 4 6] 1 2 4 6
    rfl rfl rfl rfl
  exact ⟨rfl, h.1, h.2.1, h.2.2⟩

/-- C7: `from_points` accepts any pair of points — reversed orderings and
equal coordinates included — and `to_points` returns exactly
`[p0[0], p0[1], p1[0], p1[1]]`. -/
theorem rectp_from_points_to_points (p0 p1 : ℚ × ℚ) :
    (RectP.from_points p0 p1).to_points =
      [some p0.1, some p0.2, some p1.1, some p1.2] := rfl

/-! ## Theorems: RadioButtonPanel -/

/-- Selecting an existing, currently unchecked button `j` sets `selected` to
its label, checks it, and leaves every other button unchecked. -/
theorem selectButton_spec (p : RadioButtonPanel) (j : Nat) (b : RadioButton)
    (hb : p.radioButtons[j]? = some b) (hc : b.checked = false) :
    (selectButton p j).selected = b.text ∧
    (selectButton p j).radioButtons[j]? = some { b with checked := true } ∧
    ExactlyOneChecked (selectButton p j) := by
  have hlen : j < p.radioButtons.length := (List.getElem?_eq_some.mp hb).1
  have hset : (p.radioButtons.set j { b with checked := true })[j]? =
      some { b with checked := true } :=
    List.getElem?_set_eq_of_lt _ hlen
  have hred : selectButton p j =
      { names := p.names,
        selected := RadioButton.text { b with checked := true },
        radioButtons :=
          (p.radioButtons.set j { b with checked := true }).mapIdx
            fun k c => if k = j then c else { c with checked := false } } := by
    unfold selectButton
    rw [hb]
    dsimp only
    rw [hc]
    unfold onRadioButtonChanged
    simp only [hset]
    rfl
  rw [hred]
  refine ⟨rfl, ?_, ?_⟩
  · rw [mapIdx_getElem?, hset]
    simp
  · refine ⟨j, { b with checked := true }, ?_, rfl, rfl, ?_⟩
    · rw [mapIdx_getElem?, hset]; simp
    · intro k c hk hck
      by_contra hkj
      rw [mapIdx_getElem?] at hk
      cases h0 : (p.radioButtons.set j { b with checked := true })[k]? with
      | none => rw [h0] at hk; simp at hk
      | some c0 =>
          rw [h0] at hk
          simp only [Option.map_some', Option.some.injEq] at hk
          rw [if_neg hkj] at hk
          rw [← hk] at hck
          simp at hck

/-- `selectButton` preserves the single-selection invariant. -/
theorem selectButton_preserves (p : RadioButtonPanel) (hp : ExactlyOneChecked p) (j : Nat) :
    ExactlyOneChecked (selectButton p j) := by
  cases hb : p.radioButtons[j]? with
  | none =>
      unfold selectButton
      rw [hb]
      exact hp
  | some b =>
      by_cases hc : b.checked = true
      · unfold selectButton
        rw [hb]
        dsimp only
        rw [hc]
        simpa using hp
      · exact (selectButton_spec p j b hb (by simpa using hc)).2.2

/-- Any sequence of selections preserves the single-selection invariant. -/
theorem foldl_selectButton_preserves (ops : List Nat) (p : RadioButtonPanel)
    (hp : ExactlyOneChecked p) : ExactlyOneChecked (ops.foldl selectButton p) := by
  induction ops generalizing p with
  | nil => exact hp
  | cons j rest ih => exact ih _ (selectButton_preserves p hp j)

/-- Re-assigning `selected` to the value it already has is the identity. -/
theorem reselect_eta (q : RadioButtonPanel) (nm : String) (hsel : q.selected = nm) :
    ({ q with selected := nm } : RadioButtonPanel) = q := by
  rw [← hsel]

/-- A successfully constructed panel satisfies the single-selection
invariant and its selection is the first name. -/
theorem mkRadioButtonPanel_ok (names : List String) (p : RadioButtonPanel)
    (h : mkRadioButtonPanel names = Except.ok p) :
    ExactlyOneChecked p ∧ names[0]? = some p.selected := by
  match names with
  | [] => simp [mkRadioButtonPanel] at h
  | nm0 :: rest =>
      have hb : (RadioButtonPanel.mk (nm0 :: rest)
          ((nm0 :: rest).map fun nm => RadioButton.mk nm false) "").radioButtons[0]? =
          some (RadioButton.mk nm0 false) := by simp
      have hspec := selectButton_spec _ 0 _ hb rfl
      have hp : p = { selectButton (RadioButtonPanel.mk (nm0 :: rest)
          ((nm0 :: rest).map fun nm => RadioButton.mk nm false) "") 0 with
            selected := nm0 } := by
        simp only [mkRadioButtonPanel] at h
        exact (Except.ok.injEq _ _ |>.mp h).symm
      have hpe : p = selectButton (RadioButtonPanel.mk (nm0 :: rest)
          ((nm0 :: rest).map fun nm => RadioButton.mk nm false) "") 0 := by
        rw [hp]; exact reselect_eta _ nm0 hspec.1
      constructor
      · rw [hpe]; exact hspec.2.2
      · rw [hpe, hspec.1]; simp

/-- C4: a `RadioButtonPanel(["A", "B", "C"])` starts with selection `"A"`;
after selecting button `"C"`, `getCurrentSelection()` returns `"C"` and no
button other than `"C"` reports checked. -/
theorem radiopanel_ABC_selection :
    ∃ p : RadioButtonPanel, mkRadioButtonPanel ["A", "B", "C"] = Except.ok p ∧
      getCurrentSelection p = "A" ∧
      getCurrentSelection (selectButton p 2) = "C" ∧
      (selectButton p 2).radioButtons.map (fun b => (b.text, b.checked)) =
        [("A", false), ("B", false), ("C", true)] :=
  ⟨RadioButtonPanel.mk ["A", "B", "C"]
      [RadioButton.mk "A" true, RadioButton.mk "B" false, RadioButton.mk "C" false] "A",
    rfl, by decide, by decide, by decide⟩

/-- C5: after a successful construction the selection defaults to the first
name, and under any sequence of button selections exactly one radio button
is checked with `getCurrentSelection()` returning its label. -/
theorem radiopanel_exactly_one_invariant (names : List String) (p : RadioButtonPanel)
    (h : mkRadioButtonPanel names = Except.ok p) (ops : List Nat) :
    names[0]? = some p.selected ∧ ExactlyOneChecked (ops.foldl selectButton p) := by
  obtain ⟨h1, h2⟩ := mkRadioButtonPanel_ok names p h
  exact ⟨h2, foldl_selectButton_preserves ops p h1⟩

/-- The concrete panel produced by `RadioButtonPanel(["A", "B"])`. -/
def panelAB : RadioButtonPanel :=
  RadioButtonPanel.mk ["A", "B"] [RadioButton.mk "A" true, RadioButton.mk "B" false] "A"

/-- Witness for `radiopanel_exactly_one_invariant` on the panel
`["A", "B"]` with the selection sequence `[1]`. -/
theorem radiopanel_exactly_one_invariant_witness :
    mkRadioButtonPanel ["A", "B"] = Except.ok panelAB ∧
    (["A", "B"][0]? = some panelAB.selected ∧
      ExactlyOneChecked ([1].foldl selectButton panelAB)) :=
  ⟨rfl, radiopanel_exactly_one_invariant ["A", "B"] panelAB rfl [1]⟩

/-- C9: constructing a `RadioButtonPanel` with an empty name list raises an
`IndexError`; for every non-empty name list the construction succeeds with
the first (default) button checked. -/
theorem radiopanel_empty_index_error :
    mkRadioButtonPanel [] = Except.error "IndexError" ∧
    ∀ (nm0 : String) (rest : List String), ∃ p : RadioButtonPanel,
      mkRadioButtonPanel (nm0 :: rest) = Except.ok p ∧
      p.radioButtons[0]? = some (RadioButton.mk nm0 true) := by
  refine ⟨rfl, fun nm0 rest => ⟨_, rfl, ?_⟩⟩
  have hb : (RadioButtonPanel.mk (nm0 :: rest)
      ((nm0 :: rest).map fun nm => RadioButton.mk nm false) "").radioButtons[0]? =
      some (RadioButton.mk nm0 false) := by simp
  have hspec := selectButton_spec _ 0 _ hb rfl
  exact hspec.2.1

/-! ## Theorems: ToggleButton -/

/-- The suffix update leaves the checked state unchanged. -/
theorem runOnToggle_checked (b : ToggleButton) : b.runOnToggle.checked = b.checked := by
  unfold ToggleButton.runOnToggle; split <;> rfl

/-- The suffix update leaves the `exclu` flag unchanged. -/
theorem runOnToggle_exclu (b : ToggleButton) : b.runOnToggle.exclu = b.exclu := by
  unfold ToggleButton.runOnToggle; split <;> rfl

/-- After `setChecked(False)` a button is unchecked. -/
theorem setOff_checked (b : ToggleButton) : b.setOff.checked = false := by
  unfold ToggleButton.setOff
  split
  · rw [runOnToggle_checked]
  · simpa using ‹¬b.checked = true›

/-- `setChecked(False)` leaves the `exclu` flag unchanged. -/
theorem setOff_exclu (b : ToggleButton) : b.setOff.exclu = b.exclu := by
  unfold ToggleButton.setOff
  split
  · rw [runOnToggle_exclu]
  · rfl

/-- Checked state after a toggle of an exclusive button `i`: button `i`
flips, and every other button is on afterwards only if it was on and `i`
was on before (so a transition of `i` to on turns everyone else off). -/
theorem toggleEvent_checked (n : Nat) (g : Fin n → ToggleButton) (i : Fin n)
    (hexclu : (g i).exclu = true) (j : Fin n) :
    (toggleEvent n g i j).checked =
      if j = i then !(g i).checked else ((g j).checked && (g i).checked) := by
  by_cases hc : (g i).checked <;> by_cases hj : j = i <;>
    simp [toggleEvent, updateToggleState, Function.update, hexclu, hc, hj,
      runOnToggle_checked, setOff_checked]

/-- A toggle never changes any button's `exclu` flag. -/
theorem toggleEvent_exclu (n : Nat) (g : Fin n → ToggleButton) (i j : Fin n) :
    (toggleEvent n g i j).exclu = (g j).exclu := by
  unfold toggleEvent updateToggleState
  by_cases hj : j = i <;>
    split_ifs <;>
      simp [Function.update, hj, runOnToggle_exclu, setOff_exclu]

/-- Toggling an exclusive button preserves `AtMostOneOn`. -/
theorem toggleEvent_atMostOne (n : Nat) (g : Fin n → ToggleButton) (i : Fin n)
    (hexclu : (g i).exclu = true) (hamo : AtMostOneOn n g) :
    AtMostOneOn n (toggleEvent n g i) := by
  intro j k hjc hkc
  rw [toggleEvent_checked n g i hexclu j] at hjc
  rw [toggleEvent_checked n g i hexclu k] at hkc
  by_cases hj : j = i <;> by_cases hk : k = i
  · rw [hj, hk]
  · rw [if_pos hj] at hjc
    rw [if_neg hk] at hkc
    simp only [Bool.not_eq_true'] at hjc
    simp [hjc] at hkc
  · rw [if_neg hj] at hjc
    rw [if_pos hk] at hkc
    simp only [Bool.not_eq_true'] at hkc
    simp [hkc] at hjc
  · rw [if_neg hj] at hjc
    rw [if_neg hk] at hkc
    simp only [Bool.and_eq_true] at hjc hkc
    exact hamo j k hjc.1 hkc.1

/-- Along any sequence of toggles of an all-exclusive group, all buttons
stay exclusive and at most one is ever on. -/
theorem applyToggles_exclu_inv (n : Nat) (g : Fin n → ToggleButton)
    (hexclu : ∀ j, (g j).exclu = true) (hamo : AtMostOneOn n g) (ops : List (Fin n)) :
    (∀ j, (applyToggles n g ops j).exclu = true) ∧ AtMostOneOn n (applyToggles n g ops) := by
  induction ops generalizing g with
  | nil => exact ⟨hexclu, hamo⟩
  | cons i rest ih =>
      have hex2 : ∀ j, (toggleEvent n g i j).exclu = true :=
        fun j => (toggleEvent_exclu n g i j).trans (hexclu j)
      have hamo2 : AtMostOneOn n (toggleEvent n g i) :=
        toggleEvent_atMostOne n g i (hexclu i) hamo
      exact ih (toggleEvent n g i) hex2 hamo2

/-- C1: in a group of exclusive toggle buttons sharing one parent, starting
all-off, any sequence of toggles leaves at most one button on; moreover,
whenever a further toggle puts some button on, every other button of the
group reads off. -/
theorem toggle_group_exclusive (n : Nat) (g : Fin n → ToggleButton)
    (hexclu : ∀ j, (g j).exclu = true) (hinit : ∀ j, (g j).checked = false)
    (ops : List (Fin n)) :
    AtMostOneOn n (applyToggles n g ops) ∧
    ∀ i j : Fin n, j ≠ i →
      (toggleEvent n (applyToggles n g ops) i i).checked = true →
      (toggleEvent n (applyToggles n g ops) i j).checked = false := by
  have h0 : AtMostOneOn n g := fun j k hj _ => absurd hj (by simp [hinit j])
  obtain ⟨he, ha⟩ := applyToggles_exclu_inv n g hexclu h0 ops
  refine ⟨ha, fun i j hj hii => ?_⟩
  rw [toggleEvent_checked n _ i (he i) i, if_pos rfl] at hii
  rw [toggleEvent_checked n _ i (he i) j, if_neg hj]
  simp only [Bool.not_eq_true'] at hii
  simp [hii]

/-- A concrete all-exclusive group of two freshly constructed buttons. -/
def toggleGroupW : Fin 2 → ToggleButton := fun _ => ToggleButton.init "a" false true

/-- Witness for `toggle_group_exclusive` on a two-button group with the
toggle sequence `[0, 1]`. -/
theorem toggle_group_exclusive_witness :
    (∀ j : Fin 2, (toggleGroupW j).exclu = true) ∧
    (∀ j : Fin 2, (toggleGroupW j).checked = false) ∧
    AtMostOneOn 2 (applyToggles 2 toggleGroupW [0, 1]) :=
  ⟨by decide, by decide,
   (toggle_group_exclusive 2 toggleGroupW (by decide) (by decide) [0, 1]).1⟩

/-- C8: toggling a non-exclusive button performs no coordination — every
other button of the same parent is left entirely unchanged. -/
theorem toggle_nonexclusive_untouched (n : Nat) (g : Fin n → ToggleButton) (i : Fin n)
    (hexclu : (g i).exclu = false) (j : Fin n) (hj : j ≠ i) :
    toggleEvent n g i j = g j := by
  unfold toggleEvent
  simp [hexclu, Function.update, hj]

/-- A concrete group of two non-exclusive buttons. -/
def toggleGroupW8 : Fin 2 → ToggleButton := fun _ => ToggleButton.init "a" false false

/-- Witness for `toggle_nonexclusive_untouched`: toggling button `0` of a
non-exclusive pair leaves button `1` unchanged. -/
theorem toggle_nonexclusive_untouched_witness :
    (toggleGroupW8 0).exclu = false ∧ (1 : Fin 2) ≠ 0 ∧
    toggleEvent 2 toggleGroupW8 0 1 = toggleGroupW8 1 :=
  ⟨by decide, by decide,
   toggle_nonexclusive_untouched 2 toggleGroupW8 0 (by decide) 1 (by decide)⟩

/-- C10: with `usesfix=True` and title `T`, the stored title becomes
`T + " OFF"` at construction, so toggling on displays `T + " OFF ON"` and
toggling off again displays `T + " OFF OFF"`. -/
theorem toggle_usesfix_double_suffix (T : String) (exclu : Bool) :
    (ToggleButton.init T true exclu).title = T ++ " OFF" ∧
    (toggleEvent 1 (fun _ => ToggleButton.init T true exclu) 0 0).text = T ++ " OFF ON" ∧
    (toggleEvent 1 (toggleEvent 1 (fun _ => ToggleButton.init T true exclu) 0) 0 0).text =
      T ++ " OFF OFF" := by
  have h1 : (" OFF" ++ " ON" : String) = " OFF ON" := by decide
  have h2 : (" OFF" ++ " OFF" : String) = " OFF OFF" := by decide
  have hassoc1 : T ++ " OFF" ++ " ON" = T ++ " OFF ON" := by
    rw [String.append_assoc, h1]
  have hassoc2 : T ++ " OFF" ++ " OFF" = T ++ " OFF OFF" := by
    rw [String.append_assoc, h2]
  cases exclu <;>
    simp [toggleEvent, updateToggleState, Function.update, ToggleButton.init,
      ToggleButton.runOnToggle, hassoc1, hassoc2]
